import Mathlib

/-!
Shallow embedding of the Mantle revm fork's L1 data-fee engine and hardfork
registry, translated from `crates/mantle/src/l1block.rs` and
`crates/mantle/src/spec.rs`.

Modelling conventions:
* `U256` values are `Nat` together with the explicit saturation bound
  `U256Max = 2^256 - 1`; `saturating_mul` / `saturating_add` clamp at that
  bound, `saturating_sub` is truncating `Nat` subtraction, and
  `wrapping_div` (always used with a non-zero constant divisor) is floor
  division.
* Byte strings (`&[u8]`) are `List Nat` whose elements are byte values.
* The fastlz compression-length estimator `flz_compress_len` lives in
  `fast_lz.rs`, which is outside the sources embedded here; the spec treats
  it as an opaque pure function, so every definition that needs it takes an
  arbitrary `flz : List Nat → Nat` parameter.
* The database trait is modelled as two total functions returning `Except`:
  `basic` (whose successful value is discarded by the code) and `storage`.
-/

/-- Maximum value of a 256-bit unsigned integer. -/
def U256Max : Nat := 2 ^ 256 - 1

/-- `U256::saturating_add`. -/
def satAdd (a b : Nat) : Nat := min (a + b) U256Max

/-- `U256::saturating_mul`. -/
def satMul (a b : Nat) : Nat := min (a * b) U256Max

/-- `U256::saturating_sub` (on `Nat` subtraction already clamps at zero). -/
def satSub (a b : Nat) : Nat := a - b

/-- `U256::wrapping_div`; for a non-zero divisor this is floor division. -/
def wrapDiv (a b : Nat) : Nat := a / b

/-- `MantleSpecId` from `crates/mantle/src/spec.rs` with its `#[repr(u8)]`
discriminants reproduced by `MantleSpecId.toU8`. -/
inductive MantleSpecId where
  | FRONTIER
  | FRONTIER_THAWING
  | HOMESTEAD
  | DAO_FORK
  | TANGERINE
  | SPURIOUS_DRAGON
  | BYZANTIUM
  | CONSTANTINOPLE
  | PETERSBURG
  | ISTANBUL
  | MUIR_GLACIER
  | BERLIN
  | LONDON
  | ARROW_GLACIER
  | GRAY_GLACIER
  | MERGE
  | BEDROCK
  | REGOLITH
  | SHANGHAI
  | CANYON
  | CANCUN
  | ECOTONE
  | FJORD
  | GRANITE
  | PRAGUE
  | PRAGUE_EOF
  | LATEST
deriving DecidableEq, Repr, Fintype

/-- The `u8` discriminant of each variant (`LATEST = u8::MAX`). -/
def MantleSpecId.toU8 : MantleSpecId → Nat
  | .FRONTIER => 0
  | .FRONTIER_THAWING => 1
  | .HOMESTEAD => 2
  | .DAO_FORK => 3
  | .TANGERINE => 4
  | .SPURIOUS_DRAGON => 5
  | .BYZANTIUM => 6
  | .CONSTANTINOPLE => 7
  | .PETERSBURG => 8
  | .ISTANBUL => 9
  | .MUIR_GLACIER => 10
  | .BERLIN => 11
  | .LONDON => 12
  | .ARROW_GLACIER => 13
  | .GRAY_GLACIER => 14
  | .MERGE => 15
  | .BEDROCK => 16
  | .REGOLITH => 17
  | .SHANGHAI => 18
  | .CANYON => 19
  | .CANCUN => 20
  | .ECOTONE => 21
  | .FJORD => 22
  | .GRANITE => 23
  | .PRAGUE => 24
  | .PRAGUE_EOF => 25
  | .LATEST => 255

/-- `MantleSpecId::enabled`: `our as u8 >= other as u8`. -/
def MantleSpecId.enabled (our other : MantleSpecId) : Bool :=
  other.toU8 ≤ our.toU8

/-- `MantleSpecId::is_enabled_in`, delegating to `enabled`. -/
def MantleSpecId.is_enabled_in (self other : MantleSpecId) : Bool :=
  MantleSpecId.enabled self other

/-- The generic EVM `SpecId` enumeration of the revm specification crate.
Its variant set is reconstructed from the exhaustive (wildcard-free)
`match` in `impl From<SpecId> for MantleSpecId` in `crates/mantle/src/spec.rs`. -/
inductive SpecId where
  | FRONTIER
  | FRONTIER_THAWING
  | HOMESTEAD
  | DAO_FORK
  | TANGERINE
  | SPURIOUS_DRAGON
  | BYZANTIUM
  | CONSTANTINOPLE
  | PETERSBURG
  | ISTANBUL
  | MUIR_GLACIER
  | BERLIN
  | LONDON
  | ARROW_GLACIER
  | GRAY_GLACIER
  | MERGE
  | SHANGHAI
  | CANCUN
  | PRAGUE
  | PRAGUE_EOF
  | LATEST
deriving DecidableEq, Repr, Fintype

/-- `MantleSpecId::into_eth_spec_id`. -/
def MantleSpecId.into_eth_spec_id : MantleSpecId → SpecId
  | .FRONTIER => .FRONTIER
  | .FRONTIER_THAWING => .FRONTIER_THAWING
  | .HOMESTEAD => .HOMESTEAD
  | .DAO_FORK => .DAO_FORK
  | .TANGERINE => .TANGERINE
  | .SPURIOUS_DRAGON => .SPURIOUS_DRAGON
  | .BYZANTIUM => .BYZANTIUM
  | .CONSTANTINOPLE => .CONSTANTINOPLE
  | .PETERSBURG => .PETERSBURG
  | .ISTANBUL => .ISTANBUL
  | .MUIR_GLACIER => .MUIR_GLACIER
  | .BERLIN => .BERLIN
  | .LONDON => .LONDON
  | .ARROW_GLACIER => .ARROW_GLACIER
  | .GRAY_GLACIER => .GRAY_GLACIER
  | .MERGE => .MERGE
  | .BEDROCK => .MERGE
  | .REGOLITH => .MERGE
  | .SHANGHAI => .SHANGHAI
  | .CANYON => .SHANGHAI
  | .CANCUN => .CANCUN
  | .ECOTONE => .CANCUN
  | .FJORD => .CANCUN
  | .GRANITE => .CANCUN
  | .PRAGUE => .PRAGUE
  | .PRAGUE_EOF => .PRAGUE_EOF
  | .LATEST => .LATEST

/-- `impl From<SpecId> for MantleSpecId`. -/
def MantleSpecId.from_eth_spec_id : SpecId → MantleSpecId
  | .FRONTIER => .FRONTIER
  | .FRONTIER_THAWING => .FRONTIER_THAWING
  | .HOMESTEAD => .HOMESTEAD
  | .DAO_FORK => .DAO_FORK
  | .TANGERINE => .TANGERINE
  | .SPURIOUS_DRAGON => .SPURIOUS_DRAGON
  | .BYZANTIUM => .BYZANTIUM
  | .CONSTANTINOPLE => .CONSTANTINOPLE
  | .PETERSBURG => .PETERSBURG
  | .ISTANBUL => .ISTANBUL
  | .MUIR_GLACIER => .MUIR_GLACIER
  | .BERLIN => .BERLIN
  | .LONDON => .LONDON
  | .ARROW_GLACIER => .ARROW_GLACIER
  | .GRAY_GLACIER => .GRAY_GLACIER
  | .MERGE => .MERGE
  | .SHANGHAI => .SHANGHAI
  | .CANCUN => .CANCUN
  | .PRAGUE => .PRAGUE
  | .PRAGUE_EOF => .PRAGUE_EOF
  | .LATEST => .LATEST

/-- `ZERO_BYTE_COST` from `l1block.rs`. -/
def ZERO_BYTE_COST : Nat := 4

/-- `NON_ZERO_BYTE_COST` from `l1block.rs`. -/
def NON_ZERO_BYTE_COST : Nat := 16

/-- The `L1BlockInfo` struct from `l1block.rs`. -/
structure L1BlockInfo where
  l1_base_fee : Nat
  l1_fee_overhead : Option Nat
  l1_base_fee_scalar : Nat
  l1_blob_base_fee : Option Nat
  l1_blob_base_fee_scalar : Option Nat
  token_ratio : Option Nat
  empty_scalars : Bool
deriving DecidableEq, Repr

/-- `Default::default()` for `L1BlockInfo`: all fields zero / `None` / `false`. -/
def L1BlockInfo.default : L1BlockInfo :=
  { l1_base_fee := 0
    l1_fee_overhead := none
    l1_base_fee_scalar := 0
    l1_blob_base_fee := none
    l1_blob_base_fee_scalar := none
    token_ratio := none
    empty_scalars := false }

/-- `L1BlockInfo::tx_estimated_size_fjord`:
`flz_compress_len(input).saturating_mul(836_500).saturating_sub(42_585_600).max(100_000_000)`. -/
def L1BlockInfo.tx_estimated_size_fjord (flz : List Nat → Nat) (_self : L1BlockInfo)
    (input : List Nat) : Nat :=
  let fastlz_size := flz input
  max (satSub (satMul fastlz_size 836500) 42585600) 100000000

/-- `L1BlockInfo::data_gas`. The pre-Fjord byte fold runs in `u64` in the
source; it is modelled on `Nat` (an overflowing fold would need an input of
more than `2^60` bytes, where the source would panic rather than wrap). -/
def L1BlockInfo.data_gas (flz : List Nat → Nat) (self : L1BlockInfo)
    (input : List Nat) (spec_id : MantleSpecId) : Nat :=
  if spec_id.is_enabled_in .FJORD then
    let estimated_size := self.tx_estimated_size_fjord flz input
    wrapDiv (satMul estimated_size NON_ZERO_BYTE_COST) 1000000
  else
    let rollup_data_gas_cost :=
      input.foldl
        (fun acc byte => acc + if byte == 0 then ZERO_BYTE_COST else NON_ZERO_BYTE_COST) 0
    if ¬ spec_id.is_enabled_in .REGOLITH then
      rollup_data_gas_cost + NON_ZERO_BYTE_COST * 68
    else
      rollup_data_gas_cost

/-- `L1BlockInfo::get_token_ratio`: `self.token_ratio.unwrap_or(U256::from(1))`. -/
def L1BlockInfo.get_token_ratio (self : L1BlockInfo) : Nat :=
  self.token_ratio.getD 1

/-- `L1BlockInfo::calculate_tx_l1_cost_bedrock`. -/
def L1BlockInfo.calculate_tx_l1_cost_bedrock (flz : List Nat → Nat) (self : L1BlockInfo)
    (input : List Nat) (spec_id : MantleSpecId) : Nat :=
  let rollup_data_gas_cost := self.data_gas flz input spec_id
  wrapDiv
    (satMul
      (satMul
        (satMul (satAdd rollup_data_gas_cost (self.l1_fee_overhead.getD 0)) self.l1_base_fee)
        self.l1_base_fee_scalar)
      self.get_token_ratio)
    1000000

/-- `L1BlockInfo::calculate_l1_fee_scaled_ecotone`:
`l1_base_fee*16*l1_base_fee_scalar + l1_blob_base_fee*l1_blob_base_fee_scalar`. -/
def L1BlockInfo.calculate_l1_fee_scaled_ecotone (self : L1BlockInfo) : Nat :=
  let calldata_cost_per_byte :=
    satMul (satMul self.l1_base_fee NON_ZERO_BYTE_COST) self.l1_base_fee_scalar
  let blob_cost_per_byte :=
    satMul (self.l1_blob_base_fee.getD 0) (self.l1_blob_base_fee_scalar.getD 0)
  satAdd calldata_cost_per_byte blob_cost_per_byte

/-- `L1BlockInfo::calculate_tx_l1_cost_ecotone`. -/
def L1BlockInfo.calculate_tx_l1_cost_ecotone (flz : List Nat → Nat) (self : L1BlockInfo)
    (input : List Nat) (spec_id : MantleSpecId) : Nat :=
  if self.empty_scalars then
    self.calculate_tx_l1_cost_bedrock flz input spec_id
  else
    let rollup_data_gas_cost := self.data_gas flz input spec_id
    let l1_fee_scaled := self.calculate_l1_fee_scaled_ecotone
    wrapDiv (satMul l1_fee_scaled rollup_data_gas_cost) (1000000 * NON_ZERO_BYTE_COST)

/-- `L1BlockInfo::calculate_tx_l1_cost_fjord`. -/
def L1BlockInfo.calculate_tx_l1_cost_fjord (flz : List Nat → Nat) (self : L1BlockInfo)
    (input : List Nat) : Nat :=
  let l1_fee_scaled := self.calculate_l1_fee_scaled_ecotone
  let estimated_size := self.tx_estimated_size_fjord flz input
  wrapDiv (satMul estimated_size l1_fee_scaled) 1000000000000

/-- `L1BlockInfo::calculate_tx_l1_cost`, the top-level entry point. -/
def L1BlockInfo.calculate_tx_l1_cost (flz : List Nat → Nat) (self : L1BlockInfo)
    (input : List Nat) (spec_id : MantleSpecId) : Nat :=
  if input.isEmpty || input.head? == some 0x7F then
    0
  else if spec_id.is_enabled_in .FJORD then
    self.calculate_tx_l1_cost_fjord flz input
  else if spec_id.is_enabled_in .ECOTONE then
    self.calculate_tx_l1_cost_ecotone flz input spec_id
  else
    self.calculate_tx_l1_cost_bedrock flz input spec_id

/-! ### The database fetch step (`L1BlockInfo::try_fetch`) -/

/-- 20-byte contract addresses, modelled as `Nat`. -/
abbrev Address : Type := Nat

/-- `L1_BLOCK_CONTRACT = 0x4200000000000000000000000000000000000015`. -/
def L1_BLOCK_CONTRACT : Address := 0x4200000000000000000000000000000000000015

/-- `GAS_ORACLE_CONTRACT = 0x420000000000000000000000000000000000000F`. -/
def GAS_ORACLE_CONTRACT : Address := 0x420000000000000000000000000000000000000F

/-- `L1_BASE_FEE_SLOT`. -/
def L1_BASE_FEE_SLOT : Nat := 1

/-- `L1_OVERHEAD_SLOT`. -/
def L1_OVERHEAD_SLOT : Nat := 5

/-- `L1_SCALAR_SLOT`. -/
def L1_SCALAR_SLOT : Nat := 6

/-- `TOKEN_RATIO_SLOT`. -/
def TOKEN_RATIO_SLOT : Nat := 0

/-- `ECOTONE_L1_BLOB_BASE_FEE_SLOT`. -/
def ECOTONE_L1_BLOB_BASE_FEE_SLOT : Nat := 7

/-- `ECOTONE_L1_FEE_SCALARS_SLOT`. -/
def ECOTONE_L1_FEE_SCALARS_SLOT : Nat := 3

/-- `BASE_FEE_SCALAR_OFFSET`. -/
def BASE_FEE_SCALAR_OFFSET : Nat := 16

/-- `BLOB_BASE_FEE_SCALAR_OFFSET`. -/
def BLOB_BASE_FEE_SCALAR_OFFSET : Nat := 20

/-- `EMPTY_SCALARS`: eight zero bytes. -/
def EMPTY_SCALARS : List Nat := List.replicate 8 0

/-- `U256::to_be_bytes::<32>()`: the 32-byte big-endian representation,
most significant byte first. -/
def to_be_bytes32 (v : Nat) : List Nat :=
  (List.range 32).map fun i => v / 256 ^ (31 - i) % 256

/-- `U256::from_be_slice`: big-endian byte fold. -/
def from_be_slice (bytes : List Nat) : Nat :=
  bytes.foldl (fun acc b => acc * 256 + b) 0

/-- Rust slice indexing `l[a..b]` on byte lists. -/
def byteSlice (l : List Nat) (a b : Nat) : List Nat :=
  (l.drop a).take (b - a)

/-- The `Database` trait as this code consumes it: `basic` forces an account
load (its successful value is discarded), `storage` reads one slot. -/
structure Db (ε : Type) where
  basic : Address → Except ε Unit
  storage : Address → Nat → Except ε Nat

/-- `L1BlockInfo::try_fetch`, with each `?` rendered as an explicit match
on the `Except` result. -/
def L1BlockInfo.try_fetch {ε : Type} (db : Db ε) (spec_id : MantleSpecId) :
    Except ε L1BlockInfo :=
  match (if spec_id.is_enabled_in .CANCUN then db.basic L1_BLOCK_CONTRACT else .ok ()) with
  | .error e => .error e
  | .ok _ =>
  match db.basic GAS_ORACLE_CONTRACT with
  | .error e => .error e
  | .ok _ =>
  match db.storage L1_BLOCK_CONTRACT L1_BASE_FEE_SLOT with
  | .error e => .error e
  | .ok l1_base_fee =>
  match db.storage GAS_ORACLE_CONTRACT TOKEN_RATIO_SLOT with
  | .error e => .error e
  | .ok token_ratio =>
  if ¬ spec_id.is_enabled_in .ECOTONE then
    match db.storage L1_BLOCK_CONTRACT L1_OVERHEAD_SLOT with
    | .error e => .error e
    | .ok l1_fee_overhead =>
    match db.storage L1_BLOCK_CONTRACT L1_SCALAR_SLOT with
    | .error e => .error e
    | .ok l1_fee_scalar =>
    .ok { L1BlockInfo.default with
          l1_base_fee := l1_base_fee
          l1_fee_overhead := some l1_fee_overhead
          l1_base_fee_scalar := l1_fee_scalar
          token_ratio := some token_ratio }
  else
    match db.storage L1_BLOCK_CONTRACT ECOTONE_L1_BLOB_BASE_FEE_SLOT with
    | .error e => .error e
    | .ok l1_blob_base_fee =>
    match db.storage L1_BLOCK_CONTRACT ECOTONE_L1_FEE_SCALARS_SLOT with
    | .error e => .error e
    | .ok raw_scalars =>
    let l1_fee_scalars := to_be_bytes32 raw_scalars
    let l1_base_fee_scalar :=
      from_be_slice (byteSlice l1_fee_scalars BASE_FEE_SCALAR_OFFSET (BASE_FEE_SCALAR_OFFSET + 4))
    let l1_blob_base_fee_scalar :=
      from_be_slice
        (byteSlice l1_fee_scalars BLOB_BASE_FEE_SCALAR_OFFSET (BLOB_BASE_FEE_SCALAR_OFFSET + 4))
    let empty_scalars :=
      l1_blob_base_fee == 0 &&
        byteSlice l1_fee_scalars BASE_FEE_SCALAR_OFFSET (BLOB_BASE_FEE_SCALAR_OFFSET + 4) ==
          EMPTY_SCALARS
    match (if empty_scalars then
             match db.storage L1_BLOCK_CONTRACT L1_OVERHEAD_SLOT with
             | .error e => .error e
             | .ok v => .ok (some v)
           else .ok none : Except ε (Option Nat)) with
    | .error e => .error e
    | .ok l1_fee_overhead =>
    .ok { l1_base_fee := l1_base_fee
          l1_base_fee_scalar := l1_base_fee_scalar
          l1_blob_base_fee := some l1_blob_base_fee
          l1_blob_base_fee_scalar := some l1_blob_base_fee_scalar
          empty_scalars := empty_scalars
          l1_fee_overhead := l1_fee_overhead
          token_ratio := some token_ratio }

/-! ### Hardfork string names (`crates/mantle/src/spec.rs`) -/

/-- The Mantle-specific name constants from the `id` module of `spec.rs`. -/
def id.BEDROCK : String := "Bedrock"

/-- `id::REGOLITH`. -/
def id.REGOLITH : String := "Regolith"

/-- `id::CANYON`. -/
def id.CANYON : String := "Canyon"

/-- `id::ECOTONE`. -/
def id.ECOTONE : String := "Ecotone"

/-- `id::FJORD`. -/
def id.FJORD : String := "Fjord"

/-- `id::GRANITE`. -/
def id.GRANITE : String := "Granite"

/-- Modelled from the spec: the generic Ethereum hardfork name constants
re-exported from the revm specification crate's `id` module, which is not
among the embedded sources. Spec §6: the name table is the Mantle names
"plus whatever names the underlying generic EVM specification exposes". -/
def eth_name : SpecId → String
  | .FRONTIER => "Frontier"
  | .FRONTIER_THAWING => "Frontier Thawing"
  | .HOMESTEAD => "Homestead"
  | .DAO_FORK => "DAO Fork"
  | .TANGERINE => "Tangerine"
  | .SPURIOUS_DRAGON => "Spurious"
  | .BYZANTIUM => "Byzantium"
  | .CONSTANTINOPLE => "Constantinople"
  | .PETERSBURG => "Petersburg"
  | .ISTANBUL => "Istanbul"
  | .MUIR_GLACIER => "MuirGlacier"
  | .BERLIN => "Berlin"
  | .LONDON => "London"
  | .ARROW_GLACIER => "Arrow Glacier"
  | .GRAY_GLACIER => "Gray Glacier"
  | .MERGE => "Merge"
  | .SHANGHAI => "Shanghai"
  | .CANCUN => "Cancun"
  | .PRAGUE => "Prague"
  | .PRAGUE_EOF => "PragueEOF"
  | .LATEST => "Latest"

/-- `impl From<&str> for MantleSpecId`: matches the generic names, then the
Mantle names (no `id::GRANITE` arm), with the wildcard arm mapping every
unrecognized name to `LATEST`. -/
def MantleSpecId.from_str (name : String) : MantleSpecId :=
  if name = eth_name .FRONTIER then .FRONTIER
  else if name = eth_name .FRONTIER_THAWING then .FRONTIER_THAWING
  else if name = eth_name .HOMESTEAD then .HOMESTEAD
  else if name = eth_name .DAO_FORK then .DAO_FORK
  else if name = eth_name .TANGERINE then .TANGERINE
  else if name = eth_name .SPURIOUS_DRAGON then .SPURIOUS_DRAGON
  else if name = eth_name .BYZANTIUM then .BYZANTIUM
  else if name = eth_name .CONSTANTINOPLE then .CONSTANTINOPLE
  else if name = eth_name .PETERSBURG then .PETERSBURG
  else if name = eth_name .ISTANBUL then .ISTANBUL
  else if name = eth_name .MUIR_GLACIER then .MUIR_GLACIER
  else if name = eth_name .BERLIN then .BERLIN
  else if name = eth_name .LONDON then .LONDON
  else if name = eth_name .ARROW_GLACIER then .ARROW_GLACIER
  else if name = eth_name .GRAY_GLACIER then .GRAY_GLACIER
  else if name = eth_name .MERGE then .MERGE
  else if name = eth_name .SHANGHAI then .SHANGHAI
  else if name = eth_name .CANCUN then .CANCUN
  else if name = eth_name .PRAGUE then .PRAGUE
  else if name = eth_name .PRAGUE_EOF then .PRAGUE_EOF
  else if name = id.BEDROCK then .BEDROCK
  else if name = id.REGOLITH then .REGOLITH
  else if name = id.CANYON then .CANYON
  else if name = id.ECOTONE then .ECOTONE
  else if name = id.FJORD then .FJORD
  else if name = eth_name .LATEST then .LATEST
  else .LATEST

/-- `impl From<MantleSpecId> for &'static str`: the pure-Ethereum variants go
through `into_eth_spec_id().into()` (the generic name table), the Mantle
variants use the `id` constants. -/
def MantleSpecId.to_str (value : MantleSpecId) : String :=
  match value with
  | .BEDROCK => id.BEDROCK
  | .REGOLITH => id.REGOLITH
  | .CANYON => id.CANYON
  | .ECOTONE => id.ECOTONE
  | .FJORD => id.FJORD
  | .GRANITE => id.GRANITE
  | .LATEST => eth_name .LATEST
  | v => eth_name v.into_eth_spec_id

/-! ### Shared concrete fixtures for witnesses and counterexamples -/

/-- A concrete stand-in for the opaque compression-length estimator, used
only to instantiate universally quantified theorems at concrete inputs. -/
def flzLen : List Nat → Nat := fun input => input.length

/-- The fee parameters of the Rust unit tests (`test_calculate_tx_l1_cost`,
`test_calculate_tx_l1_cost_ecotone`), with `empty_scalars` set. -/
def emptyScalarsInfo : L1BlockInfo :=
  { l1_base_fee := 1000
    l1_fee_overhead := some 1000
    l1_base_fee_scalar := 1000
    l1_blob_base_fee := some 1000
    l1_blob_base_fee_scalar := some 1000
    token_ratio := some 1000
    empty_scalars := true }

/-- A database whose accounts all load and whose storage slots are all zero. -/
def zeroDb : Db Unit :=
  { basic := fun _ => .ok ()
    storage := fun _ _ => .ok 0 }

/-! ### Claim theorems -/

/-- C1: for every `L1BlockInfo` snapshot and every hardfork spec id,
`calculate_tx_l1_cost` returns exactly zero whenever the input is empty or
its first byte is `0x7F`. -/
theorem claim_C1_deposit_or_empty_is_free (flz : List Nat → Nat) (info : L1BlockInfo)
    (input : List Nat) (spec_id : MantleSpecId)
    (h : input = [] ∨ input.head? = some 0x7F) :
    info.calculate_tx_l1_cost flz input spec_id = 0 := by
  unfold L1BlockInfo.calculate_tx_l1_cost
  rcases h with h | h
  · subst h
    simp
  · simp [h]

/-- Witness for C1 at the concrete deposit-typed input `[0x7F, 0x01]`. -/
theorem claim_C1_witness :
    (([0x7F, 0x01] : List Nat) = [] ∨ ([0x7F, 0x01] : List Nat).head? = some 0x7F) ∧
    L1BlockInfo.default.calculate_tx_l1_cost flzLen [0x7F, 0x01] .LATEST = 0 :=
  ⟨Or.inr rfl,
   claim_C1_deposit_or_empty_is_free flzLen L1BlockInfo.default [0x7F, 0x01] .LATEST
     (Or.inr rfl)⟩

/-- The byte fold of `data_gas` counts 4 per zero byte and 16 per non-zero
byte on top of the accumulator. -/
theorem data_gas_fold_counts (l : List Nat) (a : Nat) :
    l.foldl (fun acc byte => acc + if byte == 0 then ZERO_BYTE_COST else NON_ZERO_BYTE_COST) a =
      a + 4 * l.countP (fun b => b == 0) + 16 * l.countP (fun b => ! (b == 0)) := by
  induction l generalizing a with
  | nil => simp
  | cons b t ih =>
    rw [List.foldl_cons, ih]
    cases hb : (b == 0) <;>
      simp [hb, List.countP_cons, ZERO_BYTE_COST, NON_ZERO_BYTE_COST] <;> omega

/-- C2: on every hardfork where Fjord is not enabled, `data_gas` is the
4-per-zero-byte / 16-per-non-zero-byte sum, plus exactly 1088 when Regolith
is not enabled and nothing otherwise. -/
theorem claim_C2_data_gas_pre_fjord (flz : List Nat → Nat) (info : L1BlockInfo)
    (input : List Nat) (spec_id : MantleSpecId)
    (h : spec_id.is_enabled_in .FJORD = false) :
    info.data_gas flz input spec_id =
      4 * input.countP (fun b => b == 0) + 16 * input.countP (fun b => ! (b == 0)) +
        (if spec_id.is_enabled_in .REGOLITH then 0 else 1088) := by
  unfold L1BlockInfo.data_gas
  rw [data_gas_fold_counts]
  cases hr : spec_id.is_enabled_in .REGOLITH <;>
    simp [h, hr, NON_ZERO_BYTE_COST]

/-- Witness for C2 under `BEDROCK` (Regolith off) at the input `[0x00, 0xFA]`. -/
theorem claim_C2_witness :
    MantleSpecId.is_enabled_in .BEDROCK .FJORD = false ∧
    L1BlockInfo.default.data_gas flzLen [0x00, 0xFA] .BEDROCK =
      4 * ([0x00, 0xFA] : List Nat).countP (fun b => b == 0) +
        16 * ([0x00, 0xFA] : List Nat).countP (fun b => ! (b == 0)) +
        (if MantleSpecId.is_enabled_in .BEDROCK .REGOLITH then 0 else 1088) :=
  ⟨by decide,
   claim_C2_data_gas_pre_fjord flzLen L1BlockInfo.default [0x00, 0xFA] .BEDROCK (by decide)⟩

/-- C3: on every hardfork where Fjord is enabled, `data_gas` equals
`max(100_000_000, flz(input)*836_500 - 42_585_600) * 16 / 1_000_000` under
saturating multiplication/subtraction and floor division, and is therefore
at least 1600, for every input and every compression estimator. -/
theorem claim_C3_data_gas_fjord (flz : List Nat → Nat) (info : L1BlockInfo)
    (input : List Nat) (spec_id : MantleSpecId)
    (h : spec_id.is_enabled_in .FJORD = true) :
    info.data_gas flz input spec_id =
      min (max 100000000 (min (flz input * 836500) U256Max - 42585600) * 16) U256Max
        / 1000000 ∧
    1600 ≤ info.data_gas flz input spec_id := by
  have hval : info.data_gas flz input spec_id =
      min (max 100000000 (min (flz input * 836500) U256Max - 42585600) * 16) U256Max
        / 1000000 := by
    simp only [L1BlockInfo.data_gas, h, if_true, L1BlockInfo.tx_estimated_size_fjord,
      satMul, satSub, wrapDiv, NON_ZERO_BYTE_COST]
    rw [Nat.max_comm]
  refine ⟨hval, ?_⟩
  rw [hval]
  have h1 : (100000000 : Nat) ≤ max 100000000 (min (flz input * 836500) U256Max - 42585600) :=
    Nat.le_max_left _ _
  have h2 : (1600000000 : Nat) ≤
      max 100000000 (min (flz input * 836500) U256Max - 42585600) * 16 := by
    calc (1600000000 : Nat) = 100000000 * 16 := by norm_num
    _ ≤ _ := Nat.mul_le_mul_right 16 h1
  have h3 : (1600000000 : Nat) ≤ U256Max := by
    have : (1600000000 : Nat) ≤ 2 ^ 64 - 1 := by norm_num
    exact this.trans (Nat.sub_le_sub_right (Nat.pow_le_pow_right (by norm_num) (by norm_num)) 1)
  have h4 : (1600000000 : Nat) ≤
      min (max 100000000 (min (flz input * 836500) U256Max - 42585600) * 16) U256Max :=
    le_min h2 h3
  calc (1600 : Nat) = 1600000000 / 1000000 := by norm_num
  _ ≤ _ := Nat.div_le_div_right h4

/-- Witness for C3 under `FJORD` at the input `[0xFA, 0xCA, 0xDE]`. -/
theorem claim_C3_witness :
    MantleSpecId.is_enabled_in .FJORD .FJORD = true ∧
    (L1BlockInfo.default.data_gas flzLen [0xFA, 0xCA, 0xDE] .FJORD =
      min (max 100000000 (min (flzLen [0xFA, 0xCA, 0xDE] * 836500) U256Max - 42585600) * 16)
          U256Max / 1000000 ∧
    1600 ≤ L1BlockInfo.default.data_gas flzLen [0xFA, 0xCA, 0xDE] .FJORD) :=
  ⟨by decide,
   claim_C3_data_gas_fjord flzLen L1BlockInfo.default [0xFA, 0xCA, 0xDE] .FJORD (by decide)⟩

/-- C4 counterexample: with `empty_scalars` set, the Ecotone-spec cost of
`0xFACADE` (1,048,000 with the unit-test fee parameters) differs from the
Bedrock-spec cost (2,136,000): `data_gas` under `BEDROCK` adds the
pre-Regolith `16*68` term that the Ecotone-spec delegation never sees. -/
theorem claim_C4_counterexample :
    emptyScalarsInfo.empty_scalars = true ∧
    emptyScalarsInfo.calculate_tx_l1_cost flzLen [0xFA, 0xCA, 0xDE] .ECOTONE ≠
      emptyScalarsInfo.calculate_tx_l1_cost flzLen [0xFA, 0xCA, 0xDE] .BEDROCK := by
  constructor
  · rfl
  · decide

/-- C4 amended: with `empty_scalars` set, the Ecotone path delegates to the
Bedrock cost function at the *Ecotone* spec id, so the top-level cost under
`ECOTONE` equals the top-level cost under `REGOLITH` (the Bedrock-family
formula without the pre-Regolith extra), not under `BEDROCK`. -/
theorem claim_C4_amended_ecotone_falls_back_to_regolith_cost (flz : List Nat → Nat)
    (info : L1BlockInfo) (input : List Nat)
    (h : info.empty_scalars = true) :
    info.calculate_tx_l1_cost flz input .ECOTONE =
      info.calculate_tx_l1_cost flz input .REGOLITH := by
  simp [L1BlockInfo.calculate_tx_l1_cost, L1BlockInfo.calculate_tx_l1_cost_ecotone,
    L1BlockInfo.calculate_tx_l1_cost_bedrock, L1BlockInfo.data_gas,
    MantleSpecId.is_enabled_in, MantleSpecId.enabled, MantleSpecId.toU8, h]

/-- Witness for the amended C4 at the unit-test snapshot and input. -/
theorem claim_C4_witness :
    emptyScalarsInfo.empty_scalars = true ∧
    emptyScalarsInfo.calculate_tx_l1_cost flzLen [0xFA, 0xCA, 0xDE] .ECOTONE =
      emptyScalarsInfo.calculate_tx_l1_cost flzLen [0xFA, 0xCA, 0xDE] .REGOLITH :=
  ⟨rfl,
   claim_C4_amended_ecotone_falls_back_to_regolith_cost flzLen emptyScalarsInfo
     [0xFA, 0xCA, 0xDE] rfl⟩

/-- Byte `i` of the big-endian 32-byte rendering of a slot value. -/
theorem to_be_bytes32_getD (v i : Nat) (hi : i < 32) :
    (to_be_bytes32 v).getD i 0 = v / 256 ^ (31 - i) % 256 := by
  simp [to_be_bytes32, List.getD, List.getElem?_map, List.getElem?_range, hi]

/-- The packed-scalars slice `[16..24]` equals `EMPTY_SCALARS` exactly when
bytes 16 through 23 of the big-endian slot rendering are all zero. -/
theorem scalars_slice_empty_iff (v : Nat) :
    byteSlice (to_be_bytes32 v) BASE_FEE_SCALAR_OFFSET (BLOB_BASE_FEE_SCALAR_OFFSET + 4) =
        EMPTY_SCALARS ↔
      ∀ i, 16 ≤ i → i ≤ 23 → (to_be_bytes32 v).getD i 0 = 0 := by
  have hslice : byteSlice (to_be_bytes32 v) BASE_FEE_SCALAR_OFFSET
        (BLOB_BASE_FEE_SCALAR_OFFSET + 4) =
      [v / 256 ^ 15 % 256, v / 256 ^ 14 % 256, v / 256 ^ 13 % 256, v / 256 ^ 12 % 256,
       v / 256 ^ 11 % 256, v / 256 ^ 10 % 256, v / 256 ^ 9 % 256, v / 256 ^ 8 % 256] := rfl
  have hempty : EMPTY_SCALARS = [0, 0, 0, 0, 0, 0, 0, 0] := rfl
  rw [hslice, hempty]
  simp only [List.cons.injEq, and_true]
  constructor
  · rintro ⟨h16, h17, h18, h19, h20, h21, h22, h23⟩ i h1 h2
    interval_cases i <;> assumption
  · intro hall
    exact ⟨hall 16 (by omega) (by omega), hall 17 (by omega) (by omega),
      hall 18 (by omega) (by omega), hall 19 (by omega) (by omega),
      hall 20 (by omega) (by omega), hall 21 (by omega) (by omega),
      hall 22 (by omega) (by omega), hall 23 (by omega) (by omega)⟩

/-- C5: a successful `try_fetch` returns a snapshot in which
`l1_fee_overhead` is present iff Ecotone is off or the scalars were empty,
the blob fee fields are present iff Ecotone is on, and `empty_scalars` holds
iff Ecotone is on, the blob-base-fee slot read zero, and bytes 16–23 of the
big-endian packed-scalars slot are all zero. -/
theorem claim_C5_try_fetch_invariants (ε : Type) (db : Db ε) (spec_id : MantleSpecId)
    (info : L1BlockInfo) (blobv scalarsv : Nat)
    (h : L1BlockInfo.try_fetch db spec_id = .ok info)
    (hb : db.storage L1_BLOCK_CONTRACT ECOTONE_L1_BLOB_BASE_FEE_SLOT = .ok blobv)
    (hsc : db.storage L1_BLOCK_CONTRACT ECOTONE_L1_FEE_SCALARS_SLOT = .ok scalarsv) :
    (info.l1_fee_overhead.isSome = true ↔
      (spec_id.is_enabled_in .ECOTONE = false ∨ info.empty_scalars = true)) ∧
    (info.l1_blob_base_fee.isSome = true ↔ spec_id.is_enabled_in .ECOTONE = true) ∧
    (info.l1_blob_base_fee_scalar.isSome = true ↔ spec_id.is_enabled_in .ECOTONE = true) ∧
    (info.empty_scalars = true ↔
      (spec_id.is_enabled_in .ECOTONE = true ∧ blobv = 0 ∧
        ∀ i, 16 ≤ i → i ≤ 23 → (to_be_bytes32 scalarsv).getD i 0 = 0)) := by
  unfold L1BlockInfo.try_fetch at h
  split at h
  · exact Except.noConfusion h
  split at h
  · exact Except.noConfusion h
  split at h
  · exact Except.noConfusion h
  split at h
  · exact Except.noConfusion h
  split at h
  case _ hecoF =>
    have he : spec_id.is_enabled_in .ECOTONE = false := by
      revert hecoF
      cases spec_id.is_enabled_in .ECOTONE <;> simp
    split at h
    · exact Except.noConfusion h
    split at h
    · exact Except.noConfusion h
    injection h with h
    subst h
    simp [L1BlockInfo.default, he]
  case _ hecoT =>
    have he : spec_id.is_enabled_in .ECOTONE = true := by
      revert hecoT
      cases spec_id.is_enabled_in .ECOTONE <;> simp
    simp only [hb, hsc] at h
    cases hbool : (blobv == 0 &&
        byteSlice (to_be_bytes32 scalarsv) BASE_FEE_SCALAR_OFFSET
            (BLOB_BASE_FEE_SCALAR_OFFSET + 4) == EMPTY_SCALARS) with
    | true =>
      rw [hbool] at h
      rw [if_pos rfl] at h
      rw [Bool.and_eq_true, beq_iff_eq, beq_iff_eq] at hbool
      have hall := (scalars_slice_empty_iff scalarsv).mp hbool.2
      cases h5 : db.storage L1_BLOCK_CONTRACT L1_OVERHEAD_SLOT with
      | error e =>
        simp only [h5] at h
        exact Except.noConfusion h
      | ok w =>
        simp only [h5] at h
        injection h with h
        subst h
        exact ⟨⟨fun _ => Or.inr rfl, fun _ => rfl⟩,
          ⟨fun _ => he, fun _ => rfl⟩,
          ⟨fun _ => he, fun _ => rfl⟩,
          ⟨fun _ => ⟨he, hbool.1, hall⟩, fun _ => rfl⟩⟩
    | false =>
      rw [hbool] at h
      rw [if_neg Bool.false_ne_true] at h
      simp only [] at h
      injection h with h
      subst h
      have hnot : ¬ (blobv = 0 ∧
          ∀ i, 16 ≤ i → i ≤ 23 → (to_be_bytes32 scalarsv).getD i 0 = 0) := by
        rintro ⟨h0, hall⟩
        have hx : (blobv == 0 &&
            byteSlice (to_be_bytes32 scalarsv) BASE_FEE_SCALAR_OFFSET
                (BLOB_BASE_FEE_SCALAR_OFFSET + 4) == EMPTY_SCALARS) = true := by
          rw [Bool.and_eq_true, beq_iff_eq, beq_iff_eq]
          exact ⟨h0, (scalars_slice_empty_iff scalarsv).mpr hall⟩
        rw [hbool] at hx
        exact Bool.noConfusion hx
      refine ⟨?_, ⟨fun _ => he, fun _ => rfl⟩, ⟨fun _ => he, fun _ => rfl⟩, ?_⟩
      · constructor
        · intro hx
          exact Bool.noConfusion hx
        · intro hx
          rcases hx with hx | hx
          · rw [he] at hx
            exact Bool.noConfusion hx
          · exact Bool.noConfusion hx
      · constructor
        · intro hx
          exact Bool.noConfusion hx
        · rintro ⟨-, h0, hall⟩
          exact absurd ⟨h0, hall⟩ hnot

/-- The snapshot `try_fetch` builds from the all-zero database under
`ECOTONE`. -/
def ecotoneZeroInfo : L1BlockInfo :=
  { l1_base_fee := 0
    l1_fee_overhead := some 0
    l1_base_fee_scalar := 0
    l1_blob_base_fee := some 0
    l1_blob_base_fee_scalar := some 0
    token_ratio := some 0
    empty_scalars := true }

/-- Witness for C5 at the all-zero database under `ECOTONE`. -/
theorem claim_C5_witness :
    (L1BlockInfo.try_fetch zeroDb .ECOTONE = .ok ecotoneZeroInfo ∧
     zeroDb.storage L1_BLOCK_CONTRACT ECOTONE_L1_BLOB_BASE_FEE_SLOT = .ok 0 ∧
     zeroDb.storage L1_BLOCK_CONTRACT ECOTONE_L1_FEE_SCALARS_SLOT = .ok 0) ∧
    ((ecotoneZeroInfo.l1_fee_overhead.isSome = true ↔
      (MantleSpecId.is_enabled_in .ECOTONE .ECOTONE = false ∨
        ecotoneZeroInfo.empty_scalars = true)) ∧
    (ecotoneZeroInfo.l1_blob_base_fee.isSome = true ↔
      MantleSpecId.is_enabled_in .ECOTONE .ECOTONE = true) ∧
    (ecotoneZeroInfo.l1_blob_base_fee_scalar.isSome = true ↔
      MantleSpecId.is_enabled_in .ECOTONE .ECOTONE = true) ∧
    (ecotoneZeroInfo.empty_scalars = true ↔
      (MantleSpecId.is_enabled_in .ECOTONE .ECOTONE = true ∧ (0 : Nat) = 0 ∧
        ∀ i, 16 ≤ i → i ≤ 23 → (to_be_bytes32 0).getD i 0 = 0))) :=
  ⟨⟨rfl, rfl, rfl⟩,
   claim_C5_try_fetch_invariants Unit zeroDb .ECOTONE ecotoneZeroInfo 0 0 rfl rfl rfl⟩

/-- C6 counterexample: `try_fetch` can return a snapshot whose `token_ratio`
is `Some 0` (the gas-oracle slot holds zero), and on that snapshot
`get_token_ratio` returns 0, not a value that is at least 1:
`unwrap_or(1)` substitutes 1 only for `None`, it does not clamp a stored zero. -/
theorem claim_C6_counterexample :
    L1BlockInfo.try_fetch zeroDb .REGOLITH =
      .ok { l1_base_fee := 0
            l1_fee_overhead := some 0
            l1_base_fee_scalar := 0
            l1_blob_base_fee := none
            l1_blob_base_fee_scalar := none
            token_ratio := some 0
            empty_scalars := false } ∧
    ¬ 1 ≤ ({ l1_base_fee := 0
             l1_fee_overhead := some 0
             l1_base_fee_scalar := 0
             l1_blob_base_fee := none
             l1_blob_base_fee_scalar := none
             token_ratio := some 0
             empty_scalars := false } : L1BlockInfo).get_token_ratio :=
  ⟨rfl, by decide⟩

/-- C6 amended: `get_token_ratio` is at least 1 whenever `token_ratio` is
absent or holds a non-zero value; a snapshot whose `token_ratio` is `Some 0`
yields an effective ratio of 0. -/
theorem claim_C6_amended_token_ratio_positive_unless_stored_zero (info : L1BlockInfo)
    (h : ∀ v, info.token_ratio = some v → v ≠ 0) :
    1 ≤ info.get_token_ratio := by
  unfold L1BlockInfo.get_token_ratio
  cases hv : info.token_ratio with
  | none => simp
  | some v => simpa using Nat.one_le_iff_ne_zero.mpr (h v hv)

/-- Witness for the amended C6 at a snapshot with `token_ratio = Some 5`. -/
theorem claim_C6_witness :
    (∀ v, ({ L1BlockInfo.default with token_ratio := some 5 } : L1BlockInfo).token_ratio =
        some v → v ≠ 0) ∧
    1 ≤ ({ L1BlockInfo.default with token_ratio := some 5 } : L1BlockInfo).get_token_ratio :=
  ⟨fun v hv => by
      simp [L1BlockInfo.default] at hv
      omega,
   claim_C6_amended_token_ratio_positive_unless_stored_zero
     { L1BlockInfo.default with token_ratio := some 5 }
     (fun v hv => by
        simp [L1BlockInfo.default] at hv
        omega)⟩

/-- C7: the activation check `enabled` is exactly the ordinal comparison —
it is reflexive, holds iff the ordinal of the first argument is at least the
ordinal of the second (so every pair is comparable), and `LATEST` enables
every variant. -/
theorem claim_C7_enabled_is_ordinal_comparison :
    (∀ x : MantleSpecId, MantleSpecId.enabled x x = true) ∧
    (∀ a b : MantleSpecId, MantleSpecId.enabled a b = true ↔ b.toU8 ≤ a.toU8) ∧
    (∀ v : MantleSpecId, MantleSpecId.enabled .LATEST v = true) := by
  decide

/-- C8: composing `into_eth_spec_id` with the reverse `From<SpecId>` mapping
fixes the canonical generic representative — a second round trip changes
neither the generic spec id nor the canonical `MantleSpecId`. -/
theorem claim_C8_eth_spec_round_trip_idempotent :
    ∀ v : MantleSpecId,
      (MantleSpecId.from_eth_spec_id v.into_eth_spec_id).into_eth_spec_id =
        v.into_eth_spec_id ∧
      MantleSpecId.from_eth_spec_id
          ((MantleSpecId.from_eth_spec_id v.into_eth_spec_id).into_eth_spec_id) =
        MantleSpecId.from_eth_spec_id v.into_eth_spec_id := by
  decide

/-- C9: the Ecotone and Fjord cost formulas never read `token_ratio`:
two snapshots that differ only in `token_ratio`, with `empty_scalars`
unset, give identical `calculate_tx_l1_cost` results on every
Ecotone-enabled (hence also every Fjord-enabled) spec id. -/
theorem claim_C9_token_ratio_irrelevant_post_ecotone (flz : List Nat → Nat)
    (info : L1BlockInfo) (r1 r2 : Option Nat) (input : List Nat) (spec_id : MantleSpecId)
    (he : spec_id.is_enabled_in .ECOTONE = true)
    (hs : info.empty_scalars = false) :
    ({ info with token_ratio := r1 } : L1BlockInfo).calculate_tx_l1_cost flz input spec_id =
      ({ info with token_ratio := r2 } : L1BlockInfo).calculate_tx_l1_cost flz input spec_id := by
  unfold L1BlockInfo.calculate_tx_l1_cost
  by_cases hf : spec_id.is_enabled_in .FJORD = true
  · simp [hf, L1BlockInfo.calculate_tx_l1_cost_fjord,
      L1BlockInfo.calculate_l1_fee_scaled_ecotone, L1BlockInfo.tx_estimated_size_fjord]
  · simp [hf, he, L1BlockInfo.calculate_tx_l1_cost_ecotone, hs, L1BlockInfo.data_gas,
      L1BlockInfo.calculate_l1_fee_scaled_ecotone, L1BlockInfo.tx_estimated_size_fjord]

/-- Witness for C9: changing `token_ratio` from `Some 7` to `None` does not
change the Ecotone cost of `0xFACADE`. -/
theorem claim_C9_witness :
    MantleSpecId.is_enabled_in .ECOTONE .ECOTONE = true ∧
    ({ L1BlockInfo.default with token_ratio := some 7 } : L1BlockInfo).empty_scalars = false ∧
    ({ L1BlockInfo.default with token_ratio := some 7 } : L1BlockInfo).calculate_tx_l1_cost
        flzLen [0xFA, 0xCA, 0xDE] .ECOTONE =
      ({ L1BlockInfo.default with token_ratio := none } : L1BlockInfo).calculate_tx_l1_cost
        flzLen [0xFA, 0xCA, 0xDE] .ECOTONE :=
  ⟨by decide, rfl,
   claim_C9_token_ratio_irrelevant_post_ecotone flzLen L1BlockInfo.default (some 7) none
     [0xFA, 0xCA, 0xDE] .ECOTONE (by decide) rfl⟩

/-- C10: the string table has no arm for "Granite": `GRANITE` prints as
"Granite" but parses back (through the unrecognized-name fallback) to
`LATEST`, while the five other Mantle hardfork names round-trip exactly. -/
theorem claim_C10_granite_name_does_not_round_trip :
    MantleSpecId.to_str .GRANITE = "Granite" ∧
    MantleSpecId.from_str "Granite" = .LATEST ∧
    MantleSpecId.from_str (MantleSpecId.to_str .GRANITE) ≠ .GRANITE ∧
    MantleSpecId.from_str (MantleSpecId.to_str .BEDROCK) = .BEDROCK ∧
    MantleSpecId.from_str (MantleSpecId.to_str .REGOLITH) = .REGOLITH ∧
    MantleSpecId.from_str (MantleSpecId.to_str .CANYON) = .CANYON ∧
    MantleSpecId.from_str (MantleSpecId.to_str .ECOTONE) = .ECOTONE ∧
    MantleSpecId.from_str (MantleSpecId.to_str .FJORD) = .FJORD := by
  decide
